import Mathlib

/-
Shallow embedding of the cycle_plan_2 backend (Flask + MongoDB document store).

The persistent state is a document store with one list per collection
(routes, custom_points, reviews, comments, votes).  MongoDB operations are
modelled on lists kept in insertion order:
  find_one        -> List.find?        (first matching document)
  insert_one      -> appending at the end of the list
  update_one      -> updateOne         (rewrite the first matching document)
  delete_one      -> List.eraseP       (remove the first matching document)
  delete_many     -> List.filter with the negated predicate
  count_documents -> List.countP

Generated identifiers (uuid4) and timestamps (datetime.now) are threaded as
explicit arguments.  verify_session, which maps the bearer token of a request
to a user id through an in-process table, is modelled by an
Option String argument holding the requesting user id, none meaning
unauthenticated.  Ratings travel as integers (the API uses 1 to 5 star
ratings); the aggregate rating of a route, a decimal number with one
fractional digit in the backend, is represented exactly by its value
multiplied by ten (field avg_rating_tenths), so that all arithmetic in the
embedding stays over the integers.
-/

/-- Mongo update_one on a list: rewrite the first document satisfying p. -/
def updateOne (p : α → Bool) (f : α → α) : List α → List α
  | [] => []
  | x :: xs => if p x then f x :: xs else x :: updateOne p f xs

/-- A document of the votes collection (Vote.to_dict in models/vote.py). -/
structure VoteDoc where
  vote_id : String
  route_id : String
  user_id : String
  vote_type : Int
  created_at : Nat
deriving DecidableEq

/-- A document of the reviews collection (Review.to_dict in models/review.py). -/
structure ReviewDoc where
  review_id : String
  route_id : String
  user_id : String
  content : String
  rating : Int
  created_at : Nat
deriving DecidableEq

/-- A document of the comments collection (Comment.to_dict in models/comment.py). -/
structure CommentDoc where
  comment_id : String
  route_id : String
  user_id : String
  content : String
  rating : Int
  media_urls : List String
  parent_id : Option String
  created_at : Nat
  reply_count : Int
deriving DecidableEq

/-- A document of the routes collection (Route.to_dict in models/route.py).
The vote counters upvotes, downvotes and vote_score are absent until the
first call of Vote.update_route_votes; route.get reads them with default 0,
so the embedding carries them from the start initialised to 0. -/
structure RouteDoc where
  route_id : String
  name : String
  locations : List String
  user_id : String
  created_at : Nat
  is_public : Bool
  share_count : Int
  avg_rating_tenths : Int
  review_count : Nat
  image_url : Option String
  upvotes : Int
  downvotes : Int
  vote_score : Int
deriving DecidableEq

/-- A document of the custom_points collection (models/custom_point.py). -/
structure PointDoc where
  name : String
  location : String
  user_id : String
  point_id : String
  is_custom : Bool
  created_at : Nat
deriving DecidableEq

/-- The document store shared by all model modules (db in app.py). -/
structure DB where
  routes : List RouteDoc
  custom_points : List PointDoc
  reviews : List ReviewDoc
  comments : List CommentDoc
  votes : List VoteDoc
deriving DecidableEq

/-- Round a / n (with n positive) to the nearest integer, ties to even:
the rounding Python round performs on exact decimal values. -/
def roundTiesToEven (a n : Int) : Int :=
  let f := Int.fdiv a n
  let r := a - n * f
  if 2 * r < n then f
  else if n < 2 * r then f + 1
  else if f % 2 = 0 then f else f + 1

namespace Vote

/-- vote_type = 1 if vote_type > 0 else -1 (models/vote.py line 102). -/
def normalize_vote_type (t : Int) : Int := if 0 < t then 1 else -1

/-- Vote.update_route_votes: recount the votes of the route and rewrite the
route document with the counters. -/
def update_route_votes (route_id : String) (db : DB) : DB :=
  let upvotes : Int :=
    (db.votes.countP (fun v => v.route_id == route_id && v.vote_type == 1) : Int)
  let downvotes : Int :=
    (db.votes.countP (fun v => v.route_id == route_id && v.vote_type == -1) : Int)
  let vote_score := upvotes - downvotes
  let routes1 := updateOne (fun x => x.route_id == route_id)
      (fun x => { x with upvotes := upvotes, downvotes := downvotes,
                         vote_score := vote_score }) db.routes
  { db with routes := routes1 }

/-- Vote.create_or_update_vote: toggle off on a same-type vote, rewrite on an
opposite-type vote, insert otherwise; always recount the route counters. -/
def create_or_update_vote (route_id user_id : String) (vote_type : Int)
    (new_id : String) (now : Nat) (db : DB) : Option VoteDoc × DB :=
  let t := normalize_vote_type vote_type
  match db.votes.find? (fun v => v.route_id == route_id && v.user_id == user_id) with
  | some existing =>
    if existing.vote_type == t then
      let votes1 := db.votes.eraseP (fun v => v.vote_id == existing.vote_id)
      let db1 : DB := { db with votes := votes1 }
      (none, update_route_votes route_id db1)
    else
      let votes1 := updateOne (fun v => v.vote_id == existing.vote_id)
          (fun v => { v with vote_type := t, created_at := now }) db.votes
      let db1 : DB := { db with votes := votes1 }
      -- the returned object is Vote.from_dict(existing) with only vote_type
      -- replaced: it keeps the stored created_at, not the new one
      (some { existing with vote_type := t }, update_route_votes route_id db1)
  | none =>
    let vote : VoteDoc :=
      { vote_id := new_id, route_id := route_id, user_id := user_id,
        vote_type := t, created_at := now }
    let db1 : DB := { db with votes := db.votes ++ [vote] }
    (some vote, update_route_votes route_id db1)

end Vote

namespace Review

/-- rating = max(1, min(5, rating)) (models/review.py line 112). -/
def clamp_rating (r : Int) : Int := max 1 (min 5 r)

/-- Review.update_route_rating: aggregate over the reviews of the route and
rewrite avg_rating (here in tenths) and review_count on the route document;
reset both to 0 when no review exists. -/
def update_route_rating (route_id : String) (db : DB) : DB :=
  let matching := db.reviews.filter (fun x => x.route_id == route_id)
  match matching with
  | [] =>
    let routes1 := updateOne (fun x => x.route_id == route_id)
        (fun x => { x with avg_rating_tenths := 0, review_count := 0 }) db.routes
    { db with routes := routes1 }
  | _ =>
    let avg_tenths := roundTiesToEven (10 * (matching.map (fun x => x.rating)).sum)
        (matching.length : Int)
    let routes1 := updateOne (fun x => x.route_id == route_id)
        (fun x => { x with avg_rating_tenths := avg_tenths,
                           review_count := matching.length }) db.routes
    { db with routes := routes1 }

/-- Review.create_review: overwrite the existing review of the same
(route, user) pair, returning the object built from the OLD document, or
insert a new review and recompute the route rating.  The overwrite branch
of the source performs no rating recomputation and is mirrored here. -/
def create_review (route_id user_id content : String) (rating : Int)
    (new_id : String) (now : Nat) (db : DB) : Option ReviewDoc × DB :=
  let rating := clamp_rating rating
  match db.reviews.find? (fun x => x.route_id == route_id && x.user_id == user_id) with
  | some existing =>
    let reviews1 := updateOne (fun x => x.review_id == existing.review_id)
        (fun x => { x with content := content, rating := rating,
                           created_at := now }) db.reviews
    let db1 : DB := { db with reviews := reviews1 }
    (some existing, db1)
  | none =>
    let review : ReviewDoc :=
      { review_id := new_id, route_id := route_id, user_id := user_id,
        content := content, rating := rating, created_at := now }
    let db1 : DB := { db with reviews := db.reviews ++ [review] }
    (some review, update_route_rating route_id db1)

/-- Review.delete_review: look the review up by id, delete the first document
matching both the review id and the requesting user, and recompute the route
rating when a document was deleted. -/
def delete_review (review_id user_id : String) (db : DB) : Bool × DB :=
  match db.reviews.find? (fun x => x.review_id == review_id) with
  | none => (false, db)
  | some review =>
    let route_id := review.route_id
    let deleted := db.reviews.any (fun x => x.review_id == review_id && x.user_id == user_id)
    let reviews1 := db.reviews.eraseP
        (fun x => x.review_id == review_id && x.user_id == user_id)
    let db1 : DB := { db with reviews := reviews1 }
    if deleted then (true, update_route_rating route_id db1) else (false, db1)

end Review

namespace Comment

/-- Comment.update_route_rating: aggregate over the top-level comments of the
route; the source writes the result into the same avg_rating and review_count
route fields the review aggregation uses. -/
def update_route_rating (route_id : String) (db : DB) : DB :=
  let matching := db.comments.filter (fun x => x.route_id == route_id && x.parent_id == none)
  match matching with
  | [] =>
    let routes1 := updateOne (fun x => x.route_id == route_id)
        (fun x => { x with avg_rating_tenths := 0, review_count := 0 }) db.routes
    { db with routes := routes1 }
  | _ =>
    let avg_tenths := roundTiesToEven (10 * (matching.map (fun x => x.rating)).sum)
        (matching.length : Int)
    let routes1 := updateOne (fun x => x.route_id == route_id)
        (fun x => { x with avg_rating_tenths := avg_tenths,
                           review_count := matching.length }) db.routes
    { db with routes := routes1 }

/-- Comment.create_comment: insert the comment; a reply increments the reply
count of its parent, a top-level comment triggers the rating recomputation. -/
def create_comment (route_id user_id content : String) (rating : Int)
    (media_urls : List String) (parent_id : Option String)
    (new_id : String) (now : Nat) (db : DB) : Option CommentDoc × DB :=
  let rating := Review.clamp_rating rating
  let comment : CommentDoc :=
    { comment_id := new_id, route_id := route_id, user_id := user_id,
      content := content, rating := rating, media_urls := media_urls,
      parent_id := parent_id, created_at := now, reply_count := 0 }
  let db1 : DB := { db with comments := db.comments ++ [comment] }
  match parent_id with
  | some pid =>
    let comments2 := updateOne (fun x => x.comment_id == pid)
        (fun x => { x with reply_count := x.reply_count + 1 }) db1.comments
    (some comment, { db1 with comments := comments2 })
  | none => (some comment, update_route_rating route_id db1)

/-- Comment.delete_comment: delete the first document matching comment id and
requesting user; on success decrement the reply count of the parent when the
deleted comment was a reply, delete every reply of the deleted comment, and
recompute the route rating when the deleted comment was top-level. -/
def delete_comment (comment_id user_id : String) (db : DB) : Bool × DB :=
  match db.comments.find? (fun x => x.comment_id == comment_id) with
  | none => (false, db)
  | some comment =>
    let parent_id := comment.parent_id
    let route_id := comment.route_id
    let deleted := db.comments.any (fun x => x.comment_id == comment_id && x.user_id == user_id)
    let comments1 := db.comments.eraseP
        (fun x => x.comment_id == comment_id && x.user_id == user_id)
    if deleted then
      let comments2 : List CommentDoc := match parent_id with
        | some pid => updateOne (fun x => x.comment_id == pid)
            (fun x => { x with reply_count := x.reply_count - 1 }) comments1
        | none => comments1
      let comments3 := comments2.filter (fun x => !(x.parent_id == some comment_id))
      let db1 : DB := { db with comments := comments3 }
      match parent_id with
      | none => (true, update_route_rating route_id db1)
      | some _ => (true, db1)
    else (false, { db with comments := comments1 })

end Comment

namespace Route

/-- Route.get_route_by_id. -/
def get_route_by_id (route_id : String) (db : DB) : Option RouteDoc :=
  db.routes.find? (fun x => x.route_id == route_id)

/-- Route.delete_route: delete_one filtered by route id AND owning user id. -/
def delete_route (route_id user_id : String) (db : DB) : Bool × DB :=
  let deleted := db.routes.any (fun x => x.route_id == route_id && x.user_id == user_id)
  let routes1 := db.routes.eraseP (fun x => x.route_id == route_id && x.user_id == user_id)
  (deleted, { db with routes := routes1 })

/-- Route.update_share_count: $inc share_count by 1 on the route, filtered by
route id only; $inc always changes the matched document, so modified_count is
positive exactly when a route matched. -/
def update_share_count (route_id : String) (db : DB) : Bool × DB :=
  let modified := db.routes.any (fun x => x.route_id == route_id)
  let routes1 := updateOne (fun x => x.route_id == route_id)
      (fun x => { x with share_count := x.share_count + 1 }) db.routes
  (modified, { db with routes := routes1 })

/-- Route.update_route_visibility: $set is_public, filtered by route id AND
owning user id; $set changes the document only when the value differs, which
is what modified_count reports. -/
def update_route_visibility (route_id user_id : String) (is_public : Bool)
    (db : DB) : Bool × DB :=
  let modified := match db.routes.find?
      (fun x => x.route_id == route_id && x.user_id == user_id) with
    | some x => x.is_public != is_public
    | none => false
  let routes1 := updateOne (fun x => x.route_id == route_id && x.user_id == user_id)
      (fun x => { x with is_public := is_public }) db.routes
  (modified, { db with routes := routes1 })

end Route

namespace CustomPoint

/-- CustomPoint.delete_point: delete_one filtered by point id AND owner. -/
def delete_point (point_id user_id : String) (db : DB) : Bool × DB :=
  let deleted := db.custom_points.any (fun x => x.point_id == point_id && x.user_id == user_id)
  let points1 := db.custom_points.eraseP (fun x => x.point_id == point_id && x.user_id == user_id)
  (deleted, { db with custom_points := points1 })

end CustomPoint

/-- An HTTP response, reduced to its status code and success flag. -/
structure Resp where
  status : Nat
  success : Bool
deriving DecidableEq

namespace route_controller

/-- get_route_by_id endpoint: private routes require the requester to be the
owner; on success the serialized route document is the response payload. -/
def get_route_by_id (session : Option String) (route_id : String) (db : DB) :
    Resp × Option RouteDoc :=
  match Route.get_route_by_id route_id db with
  | none => (⟨404, false⟩, none)
  | some route =>
    if route.is_public then (⟨200, true⟩, some route)
    else
      match session with
      | some uid =>
        if uid == route.user_id then (⟨200, true⟩, some route)
        else (⟨403, false⟩, none)
      | none => (⟨403, false⟩, none)

/-- share_route endpoint: requires only an authenticated session and an
existing route, then increments the share counter; neither the visibility
flag nor the owner of the route is consulted. -/
def share_route (session : Option String) (route_id : String) (db : DB) :
    Resp × DB :=
  match session with
  | none => (⟨401, false⟩, db)
  | some _ =>
    match Route.get_route_by_id route_id db with
    | none => (⟨404, false⟩, db)
    | some _ =>
      match Route.update_share_count route_id db with
      | (true, db1) => (⟨200, true⟩, db1)
      | (false, db1) => (⟨500, false⟩, db1)

end route_controller

namespace review_controller

/-- create_review endpoint: requires an authenticated session and an existing
route (content and rating arrive as typed arguments of the parsed request
body); neither the visibility flag nor the owner of the route is consulted.
The middle component is the review serialized into the response. -/
def create_review (session : Option String) (route_id content : String)
    (rating : Int) (new_id : String) (now : Nat) (db : DB) :
    Resp × Option ReviewDoc × DB :=
  match session with
  | none => (⟨401, false⟩, none, db)
  | some uid =>
    match Route.get_route_by_id route_id db with
    | none => (⟨404, false⟩, none, db)
    | some _ =>
      match Review.create_review route_id uid content rating new_id now db with
      | (some review, db1) => (⟨200, true⟩, some review, db1)
      | (none, db1) => (⟨500, false⟩, none, db1)

end review_controller

namespace comment_controller

/-- create_comment endpoint: requires an authenticated session and an existing
route; a reply must name an existing parent and carry no media; the
visibility flag of the route is not consulted. -/
def create_comment (session : Option String) (route_id content : String)
    (rating : Int) (media_urls : List String) (parent_id : Option String)
    (new_id : String) (now : Nat) (db : DB) : Resp × DB :=
  match session with
  | none => (⟨401, false⟩, db)
  | some uid =>
    match Route.get_route_by_id route_id db with
    | none => (⟨404, false⟩, db)
    | some _ =>
      let parent_ok : Resp := match parent_id with
        | some pid =>
          if (db.comments.find? (fun x => x.comment_id == pid)).isNone then ⟨404, false⟩
          else if !media_urls.isEmpty then ⟨400, false⟩
          else ⟨200, true⟩
        | none => ⟨200, true⟩
      if parent_ok.success then
        match Comment.create_comment route_id uid content rating media_urls
            parent_id new_id now db with
        | (some _, db1) => (⟨200, true⟩, db1)
        | (none, db1) => (⟨500, false⟩, db1)
      else (parent_ok, db)

end comment_controller

namespace vote_controller

/-- create_or_update_vote endpoint: requires an authenticated session, an
existing route, and a PUBLIC route; then runs the vote toggle logic. -/
def create_or_update_vote (session : Option String) (route_id : String)
    (vote_type : Int) (new_id : String) (now : Nat) (db : DB) : Resp × DB :=
  match session with
  | none => (⟨401, false⟩, db)
  | some uid =>
    match Route.get_route_by_id route_id db with
    | none => (⟨404, false⟩, db)
    | some route =>
      if !route.is_public then (⟨403, false⟩, db)
      else
        match Vote.create_or_update_vote route_id uid vote_type new_id now db with
        | (_, db1) => (⟨200, true⟩, db1)

end vote_controller

namespace app

/-- p is an initial segment of s (on character lists, kept kernel friendly). -/
def charsStart : List Char → List Char → Bool
  | [], _ => true
  | _ :: _, [] => false
  | c :: cs, d :: ds => c == d && charsStart cs ds

/-- The characters after the last dot of a filename, when a dot exists:
filename.rsplit with separator dot, taking the trailing component. -/
def extAfterLastDot : List Char → Option (List Char)
  | [] => none
  | c :: cs =>
    match extAfterLastDot cs with
    | some e => some e
    | none => if c == '.' then some cs else none

/-- ALLOWED_EXTENSIONS of app.py. -/
def ALLOWED_EXTENSIONS : List (List Char) :=
  ["png".data, "jpg".data, "jpeg".data, "gif".data, "mp4".data, "webm".data, "mov".data]

/-- allowed_file of app.py: the filename holds a dot and its lowercased
extension is in the allowed set. -/
def allowed_file (filename : String) : Bool :=
  filename.data.contains '.' &&
    match extAfterLastDot filename.data with
    | some ext => ALLOWED_EXTENSIONS.contains (ext.map Char.toLower)
    | none => false

/-- upload_file of app.py: authentication, then presence of a file part, then
a nonempty filename, then the extension check; the stored-file side effects
on local disk are outside the document store and not modelled. -/
def upload_file (session : Option String) (has_file : Bool) (filename : String) : Resp :=
  match session with
  | none => ⟨401, false⟩
  | some _ =>
    if !has_file then ⟨400, false⟩
    else if filename == "" then ⟨400, false⟩
    else if allowed_file filename then ⟨200, true⟩
    else ⟨400, false⟩

/-- The handlers reachable under an /api path when the MongoDB connection
failed at startup: the except branch of app.py registers only the catch-all
database_error rule for /api/<path:path> (methods GET, POST, PUT, DELETE),
while the upload_file rule for POST /api/upload is registered at module
level, outside the try/except, and therefore stays active. -/
inductive ApiTarget where
  | database_error : ApiTarget
  | upload_file : ApiTarget
deriving DecidableEq

/-- Werkzeug URL dispatch under the failed-database configuration: the static
rule /api/upload takes precedence over the converter rule /api/<path:path>;
the converter part <path:path> must be nonempty. -/
def api_dispatch_db_failed (method path : String) : Option ApiTarget :=
  if path == "/api/upload" && method == "POST" then some ApiTarget.upload_file
  else if charsStart "/api/".data path.data && path != "/api/" &&
      (method == "GET" || method == "POST" || method == "PUT" || method == "DELETE") then
    some ApiTarget.database_error
  else none

/-- database_error of app.py: 503 with the failure flag. -/
def database_error_resp : Resp := ⟨503, false⟩

/-- The response of the application to an /api request when the database
connection failed at startup. -/
def api_response_db_failed (method path : String) (session : Option String)
    (has_file : Bool) (filename : String) : Option Resp :=
  (api_dispatch_db_failed method path).map fun t =>
    match t with
    | ApiTarget.database_error => database_error_resp
    | ApiTarget.upload_file => upload_file session has_file filename

end app

/-- At most one document of the votes collection per (route, user) pair. -/
def atMostOneVotePerPair (votes : List VoteDoc) : Prop :=
  ∀ r u, votes.countP (fun v => v.route_id == r && v.user_id == u) ≤ 1

/-- At most one document of the reviews collection per (route, user) pair. -/
def atMostOneReviewPerPair (reviews : List ReviewDoc) : Prop :=
  ∀ r u, reviews.countP (fun x => x.route_id == r && x.user_id == u) ≤ 1

/-- Concrete store for the C2 witness: one route, no votes yet. -/
def C2db : DB :=
  ⟨[⟨"r1", "n", [], "u1", 0, true, 0, 0, 0, none, 0, 0, 0⟩], [], [], [], []⟩

/-- Concrete store for the C3 counterexample: one private route of user u1
with share counter 0. -/
def C3db : DB :=
  ⟨[⟨"r1", "n", [], "u1", 0, false, 0, 0, 0, none, 0, 0, 0⟩], [], [], [], []⟩

/-- Concrete store for the C4 witness: one document per collection, all owned
by user u1, while u2 requests the deletions. -/
def C4db : DB :=
  ⟨[⟨"r1", "n", [], "u1", 0, false, 0, 0, 0, none, 0, 0, 0⟩],
   [⟨"p", "loc", "u1", "p1", true, 0⟩],
   [⟨"rv1", "r1", "u1", "good", 5, 0⟩],
   [⟨"c1", "r1", "u1", "hi", 5, [], none, 0, 0⟩],
   []⟩

/-- Concrete store for C6: route r1 carries the aggregate written when the
single review (rating 5) of user u1 was inserted: avg_rating 5.0, stored here
as 50 tenths, with review_count 1. -/
def C6db : DB :=
  ⟨[⟨"r1", "n", [], "u1", 0, true, 0, 50, 1, none, 0, 0, 0⟩], [],
   [⟨"rv1", "r1", "u1", "good", 5, 0⟩], [], []⟩

/-- Concrete store for the C7 witness: parent comment c1 by u1 with a reply
c2 by u2, plus an unrelated top-level comment c3 by u3, all on route r1. -/
def C7db : DB :=
  ⟨[⟨"r1", "n", [], "u1", 0, true, 0, 50, 2, none, 0, 0, 0⟩], [], [],
   [⟨"c1", "r1", "u1", "hi", 5, [], none, 0, 1⟩,
    ⟨"c2", "r1", "u2", "re", 5, [], some "c1", 1, 0⟩,
    ⟨"c3", "r1", "u3", "yo", 4, [], none, 2, 0⟩], []⟩

section ListLemmas

variable {α : Type _}

theorem updateOne_of_forall_not {p : α → Bool} {f : α → α} {l : List α}
    (h : ∀ a ∈ l, ¬p a = true) : updateOne p f l = l := by
  induction l with
  | nil => rfl
  | cons x xs ih =>
    have hx : ¬p x = true := h x (List.mem_cons_self x xs)
    simp only [updateOne, if_neg hx]
    rw [ih (fun a ha => h a (List.mem_cons_of_mem x ha))]

theorem length_updateOne (p : α → Bool) (f : α → α) (l : List α) :
    (updateOne p f l).length = l.length := by
  induction l with
  | nil => rfl
  | cons x xs ih =>
    by_cases hx : p x = true <;> simp [updateOne, hx, ih]

theorem countP_updateOne (p q : α → Bool) (f : α → α)
    (hq : ∀ x, q (f x) = q x) (l : List α) :
    (updateOne p f l).countP q = l.countP q := by
  induction l with
  | nil => rfl
  | cons x xs ih =>
    by_cases hx : p x = true
    · simp [updateOne, hx, List.countP_cons, hq x]
    · simp [updateOne, hx, List.countP_cons, ih]

theorem mem_updateOne {p : α → Bool} {f : α → α} {x : α} {l : List α}
    (h : x ∈ updateOne p f l) : x ∈ l ∨ ∃ y ∈ l, x = f y := by
  induction l with
  | nil => simp [updateOne] at h
  | cons a as ih =>
    by_cases ha : p a = true
    · simp only [updateOne, if_pos ha, List.mem_cons] at h
      rcases h with h | h
      · exact Or.inr ⟨a, List.mem_cons_self a as, h⟩
      · exact Or.inl (List.mem_cons_of_mem a h)
    · simp only [updateOne, if_neg ha, List.mem_cons] at h
      rcases h with h | h
      · exact Or.inl (h ▸ List.mem_cons_self a as)
      · rcases ih h with h | ⟨y, hy, hxy⟩
        · exact Or.inl (List.mem_cons_of_mem a h)
        · exact Or.inr ⟨y, List.mem_cons_of_mem a hy, hxy⟩

theorem updateOne_append_cons {p : α → Bool} {f : α → α} {l₁ : List α} {a : α}
    (l₂ : List α) (h₁ : ∀ b ∈ l₁, ¬p b = true) (h₂ : p a = true) :
    updateOne p f (l₁ ++ a :: l₂) = l₁ ++ f a :: l₂ := by
  induction l₁ with
  | nil => simp [updateOne, h₂]
  | cons b bs ih =>
    have hb : ¬p b = true := h₁ b (List.mem_cons_self b bs)
    simp only [List.cons_append, updateOne, if_neg hb]
    exact congrArg (List.cons b) (ih (fun c hc => h₁ c (List.mem_cons_of_mem b hc)))

theorem eraseP_append_cons {p : α → Bool} {l₁ : List α} {a : α}
    (l₂ : List α) (h₁ : ∀ b ∈ l₁, ¬p b = true) (h₂ : p a = true) :
    List.eraseP p (l₁ ++ a :: l₂) = l₁ ++ l₂ := by
  induction l₁ with
  | nil => simp [List.eraseP_cons_of_pos, h₂]
  | cons b bs ih =>
    have hb : ¬p b = true := h₁ b (List.mem_cons_self b bs)
    simp only [List.cons_append, List.eraseP_cons_of_neg hb]
    exact congrArg (List.cons b) (ih (fun c hc => h₁ c (List.mem_cons_of_mem b hc)))

theorem find?_split {p : α → Bool} {l : List α} {a : α} (h : l.find? p = some a) :
    ∃ l₁ l₂, (∀ b ∈ l₁, ¬p b = true) ∧ p a = true ∧ l = l₁ ++ a :: l₂ := by
  induction l with
  | nil => simp at h
  | cons x xs ih =>
    by_cases hx : p x = true
    · rw [List.find?_cons_of_pos xs hx] at h
      obtain rfl : x = a := by injection h
      exact ⟨[], xs, by simp, hx, rfl⟩
    · rw [List.find?_cons_of_neg xs hx] at h
      obtain ⟨l₁, l₂, hl₁, hpa, hl⟩ := ih h
      exact ⟨x :: l₁, l₂, by
        intro b hb
        rcases List.mem_cons.mp hb with rfl | hb
        · exact hx
        · exact hl₁ b hb, hpa, by rw [hl, List.cons_append]⟩

theorem find?_updateOne_self {p : α → Bool} {f : α → α}
    (hpf : ∀ x, p (f x) = p x) (l : List α) :
    (updateOne p f l).find? p = (l.find? p).map f := by
  induction l with
  | nil => rfl
  | cons x xs ih =>
    by_cases hx : p x = true
    · have hfx : p (f x) = true := by rw [hpf x]; exact hx
      simp [updateOne, hx, List.find?_cons_of_pos _ hfx, List.find?_cons_of_pos _ hx]
    · have hfx : ¬p (f x) = true := by rw [hpf x]; exact hx
      simp [updateOne, hx, List.find?_cons_of_neg _ hx, ih]

theorem filter_eq_singleton_of_find? {p : α → Bool} {l : List α} {a : α}
    (h : l.find? p = some a) (hle : l.countP p ≤ 1) : l.filter p = [a] := by
  obtain ⟨l₁, l₂, hl₁, hpa, rfl⟩ := find?_split h
  have hf₁ : l₁.filter p = [] := List.filter_eq_nil_iff.mpr hl₁
  rw [List.countP_eq_length_filter, List.filter_append, hf₁, List.nil_append,
    List.filter_cons, if_pos hpa] at hle
  have hf₂ : l₂.filter p = [] := by
    rw [List.length_cons] at hle
    exact List.length_eq_zero.mp (by omega)
  rw [List.filter_append, hf₁, List.nil_append, List.filter_cons, if_pos hpa, hf₂]

theorem forall_mem_eq_of_filter_singleton {p : α → Bool} {l : List α} {a : α}
    (h : l.filter p = [a]) : ∀ b ∈ l, p b = true → b = a := by
  intro b hb hpb
  have : b ∈ l.filter p := List.mem_filter.mpr ⟨hb, hpb⟩
  rw [h] at this
  simpa using this

theorem find?_key_self {key : α → String} {l : List α} {a : α}
    (hN : (l.map key).Nodup) (hmem : a ∈ l) :
    l.find? (fun x => key x == key a) = some a := by
  have hsome : (l.find? (fun x => key x == key a)).isSome := by
    rw [List.find?_isSome]
    exact ⟨a, hmem, by simp⟩
  obtain ⟨b, hb⟩ := Option.isSome_iff_exists.mp hsome
  have hbmem : b ∈ l := List.mem_of_find?_eq_some hb
  have hbkey : key b = key a := by
    have := List.find?_some hb
    simpa using this
  rw [hb, List.inj_on_of_nodup_map hN hbmem hmem hbkey]

theorem split_of_key_nodup {key : α → String} {l : List α} {a : α}
    (hN : (l.map key).Nodup) (hmem : a ∈ l) :
    ∃ l₁ l₂, (∀ b ∈ l₁, ¬(key b == key a) = true) ∧ l = l₁ ++ a :: l₂ := by
  obtain ⟨l₁, l₂, hl₁, _, hl⟩ := find?_split (find?_key_self hN hmem)
  exact ⟨l₁, l₂, hl₁, hl⟩

theorem eraseP_key_filter {key : α → String} {p : α → Bool} {l : List α} {a : α}
    (hN : (l.map key).Nodup) (hfind : l.find? p = some a) (hle : l.countP p ≤ 1) :
    (l.eraseP (fun x => key x == key a)).filter p = [] := by
  have hmem : a ∈ l := List.mem_of_find?_eq_some hfind
  have hpa : p a = true := List.find?_some hfind
  have hsingle := filter_eq_singleton_of_find? hfind hle
  obtain ⟨l₁, l₂, hl₁, hl⟩ := split_of_key_nodup hN hmem
  subst hl
  rw [eraseP_append_cons l₂ hl₁ (by simp)]
  rw [List.filter_append, List.filter_cons, if_pos hpa] at hsingle
  rcases hfl : l₁.filter p with _ | ⟨c, cs⟩
  · rw [hfl, List.nil_append, List.cons.injEq] at hsingle
    rw [List.filter_append, hfl, List.nil_append, hsingle.2]
  · rw [hfl] at hsingle
    simp [List.cons.injEq, List.append_eq_nil] at hsingle

theorem updateOne_key_filter {key : α → String} {p : α → Bool} {f : α → α}
    {l : List α} {a : α}
    (hN : (l.map key).Nodup) (hfind : l.find? p = some a) (hle : l.countP p ≤ 1)
    (hf : p (f a) = true) :
    (updateOne (fun x => key x == key a) f l).filter p = [f a] := by
  have hmem : a ∈ l := List.mem_of_find?_eq_some hfind
  have hpa : p a = true := List.find?_some hfind
  have hsingle := filter_eq_singleton_of_find? hfind hle
  obtain ⟨l₁, l₂, hl₁, hl⟩ := split_of_key_nodup hN hmem
  subst hl
  rw [updateOne_append_cons l₂ hl₁ (by simp)]
  rw [List.filter_append, List.filter_cons, if_pos hpa] at hsingle
  rcases hfl : l₁.filter p with _ | ⟨c, cs⟩
  · rw [hfl, List.nil_append, List.cons.injEq] at hsingle
    rw [List.filter_append, hfl, List.nil_append, List.filter_cons, if_pos hf,
      hsingle.2]
  · rw [hfl] at hsingle
    simp [List.cons.injEq, List.append_eq_nil] at hsingle

theorem find?_key_updateOne {key : α → String} {f : α → α} {l : List α} {a : α}
    (hN : (l.map key).Nodup) (hmem : a ∈ l) (hkey : ∀ x, key (f x) = key x) :
    (updateOne (fun x => key x == key a) f l).find? (fun x => key x == key a) =
      some (f a) := by
  have hpf : ∀ x, (key (f x) == key a) = (key x == key a) := by
    intro x; rw [hkey x]
  rw [find?_updateOne_self hpf, find?_key_self hN hmem, Option.map_some']

end ListLemmas

theorem countP_singleton_le_one (p : α → Bool) (x : α) :
    List.countP p [x] ≤ 1 := by
  by_cases h : p x = true <;> simp [List.countP_cons, h]

theorem update_route_rating_reviews (r : String) (db : DB) :
    (Review.update_route_rating r db).reviews = db.reviews := by
  cases hm : db.reviews.filter (fun x => x.route_id == r) with
  | nil => simp only [Review.update_route_rating, hm]
  | cons a l => simp only [Review.update_route_rating, hm]

theorem mem_updateOne_of_ne {key : α → String} {f : α → α} {l : List α} {a x : α}
    (hN : (l.map key).Nodup) (ha : a ∈ l) (hx : x ∈ l) (hne : x ≠ a) :
    x ∈ updateOne (fun y => key y == key a) f l := by
  obtain ⟨l₁, l₂, hl₁, hl⟩ := split_of_key_nodup hN ha
  subst hl
  rw [updateOne_append_cons l₂ hl₁ (by simp)]
  rcases List.mem_append.mp hx with h | h
  · exact List.mem_append_left _ h
  · rcases List.mem_cons.mp h with h | h
    · exact absurd h hne
    · exact List.mem_append_right _ (List.mem_cons_of_mem _ h)

theorem mem_eraseP_of_ne {key : α → String} {l : List α} {a x : α}
    (hN : (l.map key).Nodup) (ha : a ∈ l) (hx : x ∈ l) (hne : x ≠ a) :
    x ∈ l.eraseP (fun y => key y == key a) := by
  obtain ⟨l₁, l₂, hl₁, hl⟩ := split_of_key_nodup hN ha
  subst hl
  rw [eraseP_append_cons l₂ hl₁ (by simp)]
  rcases List.mem_append.mp hx with h | h
  · exact List.mem_append_left _ h
  · rcases List.mem_cons.mp h with h | h
    · exact absurd h hne
    · exact List.mem_append_right _ h


/-- Claim C1: submitting a vote of the type the user already has deletes the
vote (the operation returns none and no vote of the pair remains); submitting
the opposite type overwrites the stored vote type; submitting with no
existing vote inserts a new vote; and at most one vote per (route, user)
pair exists after the operation, so the invariant is preserved by any
sequence of vote operations. -/
theorem vote_toggle_correct (db : DB) (r u : String) (t : Int)
    (new_id : String) (now : Nat)
    (hA : atMostOneVotePerPair db.votes)
    (hN : (db.votes.map (fun v => v.vote_id)).Nodup) :
    atMostOneVotePerPair ((Vote.create_or_update_vote r u t new_id now db).2).votes ∧
    (∀ ex, db.votes.find? (fun v => v.route_id == r && v.user_id == u) = some ex →
      (ex.vote_type = Vote.normalize_vote_type t →
        (Vote.create_or_update_vote r u t new_id now db).1 = none ∧
        ((Vote.create_or_update_vote r u t new_id now db).2).votes.filter
          (fun v => v.route_id == r && v.user_id == u) = []) ∧
      (ex.vote_type ≠ Vote.normalize_vote_type t →
        (Vote.create_or_update_vote r u t new_id now db).1 =
          some { ex with vote_type := Vote.normalize_vote_type t } ∧
        ((Vote.create_or_update_vote r u t new_id now db).2).votes.filter
          (fun v => v.route_id == r && v.user_id == u) =
          [{ ex with vote_type := Vote.normalize_vote_type t, created_at := now }])) ∧
    (db.votes.find? (fun v => v.route_id == r && v.user_id == u) = none →
      (Vote.create_or_update_vote r u t new_id now db).1 =
        some ⟨new_id, r, u, Vote.normalize_vote_type t, now⟩ ∧
      ((Vote.create_or_update_vote r u t new_id now db).2).votes.filter
        (fun v => v.route_id == r && v.user_id == u) =
        [⟨new_id, r, u, Vote.normalize_vote_type t, now⟩]) := by
  cases hfind : db.votes.find? (fun v => v.route_id == r && v.user_id == u) with
  | none =>
    have hres : Vote.create_or_update_vote r u t new_id now db =
        (some ⟨new_id, r, u, Vote.normalize_vote_type t, now⟩,
         Vote.update_route_votes r
           { db with votes :=
               db.votes ++ [⟨new_id, r, u, Vote.normalize_vote_type t, now⟩] }) := by
      simp only [Vote.create_or_update_vote, hfind]
    rw [hres]
    have hzero : db.votes.countP (fun v => v.route_id == r && v.user_id == u) = 0 :=
      List.countP_eq_zero.mpr (List.find?_eq_none.mp hfind)
    refine ⟨?_, ?_, ?_⟩
    · intro r' u'
      show (db.votes ++ [(⟨new_id, r, u, Vote.normalize_vote_type t, now⟩ : VoteDoc)]).countP
        (fun v => v.route_id == r' && v.user_id == u') ≤ 1
      rw [List.countP_append]
      by_cases hm : ((⟨new_id, r, u, Vote.normalize_vote_type t, now⟩ : VoteDoc).route_id == r' &&
          (⟨new_id, r, u, Vote.normalize_vote_type t, now⟩ : VoteDoc).user_id == u') = true
      · obtain ⟨h1, h2⟩ : r = r' ∧ u = u' := by simpa using hm
        subst h1; subst h2
        simp [List.countP_cons, hm, hzero]
      · simpa [List.countP_cons, hm] using hA r' u'
    · intro ex hex
      cases hex
    · intro _
      exact ⟨rfl, by
        show (db.votes ++ [(⟨new_id, r, u, Vote.normalize_vote_type t, now⟩ : VoteDoc)]).filter
          (fun v => v.route_id == r && v.user_id == u) = _
        rw [List.filter_append, List.filter_eq_nil_iff.mpr (List.find?_eq_none.mp hfind)]
        simp⟩
  | some ex =>
    by_cases hty : ex.vote_type = Vote.normalize_vote_type t
    · have hcond : (ex.vote_type == Vote.normalize_vote_type t) = true := beq_iff_eq.mpr hty
      have hres : Vote.create_or_update_vote r u t new_id now db =
          (none, Vote.update_route_votes r
            { db with votes := db.votes.eraseP (fun v => v.vote_id == ex.vote_id) }) := by
        simp only [Vote.create_or_update_vote, hfind, hcond, if_true]
      rw [hres]
      refine ⟨?_, ?_, ?_⟩
      · intro r' u'
        show (db.votes.eraseP (fun v => v.vote_id == ex.vote_id)).countP
          (fun v => v.route_id == r' && v.user_id == u') ≤ 1
        exact le_trans (List.Sublist.countP_le _ (List.eraseP_sublist _)) (hA r' u')
      · intro ex' hex'
        injection hex' with hex'
        subst hex'
        refine ⟨fun _ => ⟨rfl, ?_⟩, fun hne => absurd hty hne⟩
        show (db.votes.eraseP (fun v => v.vote_id == ex.vote_id)).filter
          (fun v => v.route_id == r && v.user_id == u) = []
        exact eraseP_key_filter hN hfind (hA r u)
      · intro hnone
        cases hnone
    · have hcond : (ex.vote_type == Vote.normalize_vote_type t) = false := by
        simpa using hty
      have hres : Vote.create_or_update_vote r u t new_id now db =
          (some { ex with vote_type := Vote.normalize_vote_type t },
           Vote.update_route_votes r
             { db with votes := (updateOne (fun v => v.vote_id == ex.vote_id)
                 (fun v => { v with vote_type := Vote.normalize_vote_type t,
                                    created_at := now }) db.votes) }) := by
        simp only [Vote.create_or_update_vote, hfind, hcond, Bool.false_eq_true,
          if_false]
      rw [hres]
      refine ⟨?_, ?_, ?_⟩
      · intro r' u'
        show (updateOne (fun v => v.vote_id == ex.vote_id)
            (fun v => { v with vote_type := Vote.normalize_vote_type t,
                               created_at := now }) db.votes).countP
          (fun v => v.route_id == r' && v.user_id == u') ≤ 1
        rw [countP_updateOne (fun v => v.vote_id == ex.vote_id)
          (fun v => v.route_id == r' && v.user_id == u')
          (fun v => { v with vote_type := Vote.normalize_vote_type t, created_at := now })
          (fun x => rfl) db.votes]
        exact hA r' u'
      · intro ex' hex'
        injection hex' with hex'
        subst hex'
        refine ⟨fun h => absurd h hty, fun _ => ⟨rfl, ?_⟩⟩
        exact updateOne_key_filter hN hfind (hA r u)
          (by simpa using List.find?_some hfind)
      · intro hnone
        cases hnone

/-- Witness for C1: inserting a first vote on an empty store. -/
theorem vote_toggle_correct_witness :
    atMostOneVotePerPair
      ((Vote.create_or_update_vote "r1" "u1" 1 "v1" 0 (DB.mk [] [] [] [] [])).2).votes ∧
    (∀ ex, (DB.mk [] [] [] [] []).votes.find?
        (fun v => v.route_id == "r1" && v.user_id == "u1") = some ex →
      (ex.vote_type = Vote.normalize_vote_type 1 →
        (Vote.create_or_update_vote "r1" "u1" 1 "v1" 0 (DB.mk [] [] [] [] [])).1 = none ∧
        ((Vote.create_or_update_vote "r1" "u1" 1 "v1" 0 (DB.mk [] [] [] [] [])).2).votes.filter
          (fun v => v.route_id == "r1" && v.user_id == "u1") = []) ∧
      (ex.vote_type ≠ Vote.normalize_vote_type 1 →
        (Vote.create_or_update_vote "r1" "u1" 1 "v1" 0 (DB.mk [] [] [] [] [])).1 =
          some { ex with vote_type := Vote.normalize_vote_type 1 } ∧
        ((Vote.create_or_update_vote "r1" "u1" 1 "v1" 0 (DB.mk [] [] [] [] [])).2).votes.filter
          (fun v => v.route_id == "r1" && v.user_id == "u1") =
          [{ ex with vote_type := Vote.normalize_vote_type 1, created_at := 0 }])) ∧
    ((DB.mk [] [] [] [] []).votes.find?
        (fun v => v.route_id == "r1" && v.user_id == "u1") = none →
      (Vote.create_or_update_vote "r1" "u1" 1 "v1" 0 (DB.mk [] [] [] [] [])).1 =
        some ⟨"v1", "r1", "u1", Vote.normalize_vote_type 1, 0⟩ ∧
      ((Vote.create_or_update_vote "r1" "u1" 1 "v1" 0 (DB.mk [] [] [] [] [])).2).votes.filter
        (fun v => v.route_id == "r1" && v.user_id == "u1") =
        [⟨"v1", "r1", "u1", Vote.normalize_vote_type 1, 0⟩]) :=
  vote_toggle_correct (DB.mk [] [] [] [] []) "r1" "u1" 1 "v1" 0
    (fun r u => by simp) (by simp)

theorem find?_updateOne_pres {p : α → Bool} {f : α → α} {l : List α} {b : α}
    (h : (updateOne p f l).find? p = some b)
    (hpf : ∀ x, p (f x) = p x) :
    ∃ a, l.find? p = some a ∧ b = f a := by
  rw [find?_updateOne_self hpf l] at h
  obtain ⟨a, ha, hfa⟩ := Option.map_eq_some'.mp h
  exact ⟨a, ha, hfa.symm⟩

theorem update_route_votes_spec (r : String) (db : DB) :
    (Vote.update_route_votes r db).votes = db.votes ∧
    ∀ rt, (Vote.update_route_votes r db).routes.find? (fun x => x.route_id == r) = some rt →
      rt.upvotes = (db.votes.countP (fun v => v.route_id == r && v.vote_type == 1) : Int) ∧
      rt.downvotes = (db.votes.countP (fun v => v.route_id == r && v.vote_type == -1) : Int) ∧
      rt.vote_score = rt.upvotes - rt.downvotes := by
  refine ⟨rfl, ?_⟩
  intro rt hrt
  simp only [Vote.update_route_votes] at hrt
  obtain ⟨x0, hx0, rfl⟩ := find?_updateOne_pres hrt (fun x => rfl)
  exact ⟨rfl, rfl, rfl⟩

theorem create_or_update_vote_shape (r u : String) (t : Int) (new_id : String)
    (now : Nat) (db : DB) :
    ∃ res db1, Vote.create_or_update_vote r u t new_id now db =
      (res, Vote.update_route_votes r db1) := by
  simp only [Vote.create_or_update_vote]
  split
  · split
    · exact ⟨_, _, rfl⟩
    · exact ⟨_, _, rfl⟩
  · exact ⟨_, _, rfl⟩

/-- Claim C2: after every vote mutation the route document found for the
route carries an upvote counter equal to the number of stored votes of type
1 for that route, a downvote counter equal to the number of stored votes of
type -1, and a vote score equal to their difference, all recomputed from the
votes collection as it stands after the mutation. -/
theorem vote_counters_recomputed (db : DB) (r u : String) (t : Int)
    (new_id : String) (now : Nat) :
    ∀ rt, ((Vote.create_or_update_vote r u t new_id now db).2).routes.find?
        (fun x => x.route_id == r) = some rt →
      rt.upvotes = (((Vote.create_or_update_vote r u t new_id now db).2).votes.countP
          (fun v => v.route_id == r && v.vote_type == 1) : Int) ∧
      rt.downvotes = (((Vote.create_or_update_vote r u t new_id now db).2).votes.countP
          (fun v => v.route_id == r && v.vote_type == -1) : Int) ∧
      rt.vote_score = rt.upvotes - rt.downvotes := by
  intro rt hrt
  obtain ⟨res, db1, hshape⟩ := create_or_update_vote_shape r u t new_id now db
  rw [hshape] at hrt ⊢
  exact (update_route_votes_spec r db1).2 rt hrt


/-- Witness for C2: a first upvote on C2db yields counters 1 / 0 / 1. -/
theorem vote_counters_recomputed_witness :
    (⟨"r1", "n", [], "u1", 0, true, 0, 0, 0, none, 1, 0, 1⟩ : RouteDoc).upvotes =
      (((Vote.create_or_update_vote "r1" "u1" 1 "v1" 3 C2db).2).votes.countP
        (fun v => v.route_id == "r1" && v.vote_type == 1) : Int) ∧
    (⟨"r1", "n", [], "u1", 0, true, 0, 0, 0, none, 1, 0, 1⟩ : RouteDoc).downvotes =
      (((Vote.create_or_update_vote "r1" "u1" 1 "v1" 3 C2db).2).votes.countP
        (fun v => v.route_id == "r1" && v.vote_type == -1) : Int) ∧
    (⟨"r1", "n", [], "u1", 0, true, 0, 0, 0, none, 1, 0, 1⟩ : RouteDoc).vote_score =
      (⟨"r1", "n", [], "u1", 0, true, 0, 0, 0, none, 1, 0, 1⟩ : RouteDoc).upvotes -
      (⟨"r1", "n", [], "u1", 0, true, 0, 0, 0, none, 1, 0, 1⟩ : RouteDoc).downvotes :=
  vote_counters_recomputed C2db "r1" "u1" 1 "v1" 3
    ⟨"r1", "n", [], "u1", 0, true, 0, 0, 0, none, 1, 0, 1⟩ (by decide)

theorem normalize_vote_type_cases (t : Int) :
    Vote.normalize_vote_type t = 1 ∨ Vote.normalize_vote_type t = -1 := by
  by_cases h : 0 < t <;> simp [Vote.normalize_vote_type, h]

/-- Claim C10: every stored vote document has vote type exactly 1 or -1:
the operation normalizes the submitted number, sending every positive value
to 1 and every other value to -1, so a submitted vote type of 0 behaves
exactly as a downvote. -/
theorem vote_type_always_normalized (db : DB) (r u : String) (t : Int)
    (new_id : String) (now : Nat)
    (hT : ∀ v ∈ db.votes, v.vote_type = 1 ∨ v.vote_type = -1) :
    (∀ v ∈ ((Vote.create_or_update_vote r u t new_id now db).2).votes,
      v.vote_type = 1 ∨ v.vote_type = -1) ∧
    Vote.normalize_vote_type 0 = -1 ∧
    Vote.create_or_update_vote r u 0 new_id now db =
      Vote.create_or_update_vote r u (-1) new_id now db := by
  refine ⟨?_, rfl, rfl⟩
  intro v hv
  cases hfind : db.votes.find? (fun v => v.route_id == r && v.user_id == u) with
  | none =>
    have hres : Vote.create_or_update_vote r u t new_id now db =
        (some ⟨new_id, r, u, Vote.normalize_vote_type t, now⟩,
         Vote.update_route_votes r
           { db with votes :=
               db.votes ++ [⟨new_id, r, u, Vote.normalize_vote_type t, now⟩] }) := by
      simp only [Vote.create_or_update_vote, hfind]
    rw [hres] at hv
    have hv' : v ∈ db.votes ++ [(⟨new_id, r, u, Vote.normalize_vote_type t, now⟩ : VoteDoc)] := hv
    rcases List.mem_append.mp hv' with h | h
    · exact hT v h
    · have hveq : v = ⟨new_id, r, u, Vote.normalize_vote_type t, now⟩ := by simpa using h
      rw [hveq]
      exact normalize_vote_type_cases t
  | some ex =>
    by_cases hty : ex.vote_type = Vote.normalize_vote_type t
    · have hcond : (ex.vote_type == Vote.normalize_vote_type t) = true := beq_iff_eq.mpr hty
      have hres : Vote.create_or_update_vote r u t new_id now db =
          (none, Vote.update_route_votes r
            { db with votes := db.votes.eraseP (fun v => v.vote_id == ex.vote_id) }) := by
        simp only [Vote.create_or_update_vote, hfind, hcond, if_true]
      rw [hres] at hv
      have hv' : v ∈ db.votes.eraseP (fun v => v.vote_id == ex.vote_id) := hv
      exact hT v (List.Sublist.mem hv' (List.eraseP_sublist _))
    · have hcond : (ex.vote_type == Vote.normalize_vote_type t) = false := by
        simpa using hty
      have hres : Vote.create_or_update_vote r u t new_id now db =
          (some { ex with vote_type := Vote.normalize_vote_type t },
           Vote.update_route_votes r
             { db with votes := (updateOne (fun v => v.vote_id == ex.vote_id)
                 (fun v => { v with vote_type := Vote.normalize_vote_type t,
                                    created_at := now }) db.votes) }) := by
        simp only [Vote.create_or_update_vote, hfind, hcond, Bool.false_eq_true,
          if_false]
      rw [hres] at hv
      have hv' : v ∈ updateOne (fun v => v.vote_id == ex.vote_id)
          (fun v => { v with vote_type := Vote.normalize_vote_type t,
                             created_at := now }) db.votes := hv
      rcases mem_updateOne hv' with h | ⟨y, _, hy⟩
      · exact hT v h
      · rw [hy]
        exact normalize_vote_type_cases t

/-- Witness for C10: a vote with submitted type 0 on an empty store. -/
theorem vote_type_always_normalized_witness :
    (∀ v ∈ ((Vote.create_or_update_vote "r1" "u1" 0 "v1" 0 (DB.mk [] [] [] [] [])).2).votes,
      v.vote_type = 1 ∨ v.vote_type = -1) ∧
    Vote.normalize_vote_type 0 = -1 ∧
    Vote.create_or_update_vote "r1" "u1" 0 "v1" 0 (DB.mk [] [] [] [] []) =
      Vote.create_or_update_vote "r1" "u1" (-1) "v1" 0 (DB.mk [] [] [] [] []) :=
  vote_type_always_normalized (DB.mk [] [] [] [] []) "r1" "u1" 0 "v1" 0 (by simp)

/-- Claim C4: a delete or modify operation on a route, point, review or
comment whose target is not owned by the requesting user reports failure and
leaves the store unchanged, so the targeted document is still present with
the same fields; and the vote and review write operations of a user never
delete or modify a vote or review document owned by another user. -/
theorem ownership_gates_mutations (db : DB) (rid pid revid cid u : String)
    (b : Bool) (t : Int) (vid : String) (now : Nat) (ncontent : String)
    (nrating : Int) (nrid : String)
    (h1 : ∀ x ∈ db.routes, x.route_id = rid → x.user_id ≠ u)
    (h2 : ∀ x ∈ db.custom_points, x.point_id = pid → x.user_id ≠ u)
    (h3 : ∀ x ∈ db.reviews, x.review_id = revid → x.user_id ≠ u)
    (h4 : ∀ x ∈ db.comments, x.comment_id = cid → x.user_id ≠ u)
    (hNv : (db.votes.map (fun v => v.vote_id)).Nodup)
    (hNr : (db.reviews.map (fun x => x.review_id)).Nodup) :
    Route.delete_route rid u db = (false, db) ∧
    Route.update_route_visibility rid u b db = (false, db) ∧
    CustomPoint.delete_point pid u db = (false, db) ∧
    Review.delete_review revid u db = (false, db) ∧
    Comment.delete_comment cid u db = (false, db) ∧
    (∀ x ∈ db.votes, x.user_id ≠ u →
      x ∈ ((Vote.create_or_update_vote rid u t vid now db).2).votes) ∧
    (∀ x ∈ db.reviews, x.user_id ≠ u →
      x ∈ ((Review.create_review rid u ncontent nrating nrid now db).2).reviews) := by
  have hcombR : ∀ x ∈ db.routes, ¬((x.route_id == rid && x.user_id == u) = true) := by
    intro x hx
    simp only [Bool.and_eq_true, beq_iff_eq, not_and]
    exact h1 x hx
  have hcombP : ∀ x ∈ db.custom_points, ¬((x.point_id == pid && x.user_id == u) = true) := by
    intro x hx
    simp only [Bool.and_eq_true, beq_iff_eq, not_and]
    exact h2 x hx
  have hcombV : ∀ x ∈ db.reviews, ¬((x.review_id == revid && x.user_id == u) = true) := by
    intro x hx
    simp only [Bool.and_eq_true, beq_iff_eq, not_and]
    exact h3 x hx
  have hcombC : ∀ x ∈ db.comments, ¬((x.comment_id == cid && x.user_id == u) = true) := by
    intro x hx
    simp only [Bool.and_eq_true, beq_iff_eq, not_and]
    exact h4 x hx
  refine ⟨?_, ?_, ?_, ?_, ?_, ?_, ?_⟩
  · simp only [Route.delete_route, List.any_eq_false.mpr hcombR,
      List.eraseP_of_forall_not hcombR]
  · have hfnone : db.routes.find?
        (fun x => x.route_id == rid && x.user_id == u) = none :=
      List.find?_eq_none.mpr hcombR
    simp only [Route.update_route_visibility, hfnone,
      updateOne_of_forall_not hcombR]
  · simp only [CustomPoint.delete_point, List.any_eq_false.mpr hcombP,
      List.eraseP_of_forall_not hcombP]
  · cases hf : db.reviews.find? (fun x => x.review_id == revid) with
    | none => simp only [Review.delete_review, hf]
    | some review =>
      simp only [Review.delete_review, hf, List.any_eq_false.mpr hcombV,
        List.eraseP_of_forall_not hcombV, Bool.false_eq_true, if_false]
  · cases hf : db.comments.find? (fun x => x.comment_id == cid) with
    | none => simp only [Comment.delete_comment, hf]
    | some comment =>
      simp only [Comment.delete_comment, hf, List.any_eq_false.mpr hcombC,
        List.eraseP_of_forall_not hcombC, Bool.false_eq_true, if_false]
  · intro x hx hxu
    cases hfind : db.votes.find? (fun v => v.route_id == rid && v.user_id == u) with
    | none =>
      have hres : Vote.create_or_update_vote rid u t vid now db =
          (some ⟨vid, rid, u, Vote.normalize_vote_type t, now⟩,
           Vote.update_route_votes rid
             { db with votes :=
                 db.votes ++ [⟨vid, rid, u, Vote.normalize_vote_type t, now⟩] }) := by
        simp only [Vote.create_or_update_vote, hfind]
      rw [hres]
      exact List.mem_append_left _ hx
    | some ex =>
      have hp : ex.route_id = rid ∧ ex.user_id = u := by
        have h := List.find?_some hfind
        simpa using h
      have hxne : x ≠ ex := fun he => hxu (he ▸ hp.2)
      have hexm : ex ∈ db.votes := List.mem_of_find?_eq_some hfind
      by_cases hty : ex.vote_type = Vote.normalize_vote_type t
      · have hcond : (ex.vote_type == Vote.normalize_vote_type t) = true :=
          beq_iff_eq.mpr hty
        have hres : Vote.create_or_update_vote rid u t vid now db =
            (none, Vote.update_route_votes rid
              { db with votes := db.votes.eraseP (fun v => v.vote_id == ex.vote_id) }) := by
          simp only [Vote.create_or_update_vote, hfind, hcond, if_true]
        rw [hres]
        exact mem_eraseP_of_ne hNv hexm hx hxne
      · have hcond : (ex.vote_type == Vote.normalize_vote_type t) = false := by
          simpa using hty
        have hres : Vote.create_or_update_vote rid u t vid now db =
            (some { ex with vote_type := Vote.normalize_vote_type t },
             Vote.update_route_votes rid
               { db with votes := (updateOne (fun v => v.vote_id == ex.vote_id)
                   (fun v => { v with vote_type := Vote.normalize_vote_type t,
                                      created_at := now }) db.votes) }) := by
          simp only [Vote.create_or_update_vote, hfind, hcond, Bool.false_eq_true,
            if_false]
        rw [hres]
        exact mem_updateOne_of_ne hNv hexm hx hxne
  · intro x hx hxu
    cases hfind : db.reviews.find? (fun y => y.route_id == rid && y.user_id == u) with
    | none =>
      have hres : Review.create_review rid u ncontent nrating nrid now db =
          (some ⟨nrid, rid, u, ncontent, Review.clamp_rating nrating, now⟩,
           Review.update_route_rating rid
             { db with reviews :=
                 db.reviews ++ [⟨nrid, rid, u, ncontent, Review.clamp_rating nrating, now⟩] }) := by
        simp only [Review.create_review, hfind]
      rw [hres]
      show x ∈ (Review.update_route_rating rid
        { db with reviews :=
            db.reviews ++ [⟨nrid, rid, u, ncontent, Review.clamp_rating nrating, now⟩] }).reviews
      rw [update_route_rating_reviews]
      exact List.mem_append_left _ hx
    | some ex =>
      have hp : ex.route_id = rid ∧ ex.user_id = u := by
        have h := List.find?_some hfind
        simpa using h
      have hxne : x ≠ ex := fun he => hxu (he ▸ hp.2)
      have hexm : ex ∈ db.reviews := List.mem_of_find?_eq_some hfind
      have hres : Review.create_review rid u ncontent nrating nrid now db =
          (some ex,
           { db with reviews := (updateOne (fun y => y.review_id == ex.review_id)
               (fun y => { y with content := ncontent,
                                  rating := Review.clamp_rating nrating,
                                  created_at := now }) db.reviews) }) := by
        simp only [Review.create_review, hfind]
      rw [hres]
      exact mem_updateOne_of_ne hNr hexm hx hxne

/-- Witness for C4: user u2 cannot delete or modify the documents of u1. -/
theorem ownership_gates_mutations_witness :
    Route.delete_route "r1" "u2" C4db = (false, C4db) ∧
    Route.update_route_visibility "r1" "u2" true C4db = (false, C4db) ∧
    CustomPoint.delete_point "p1" "u2" C4db = (false, C4db) ∧
    Review.delete_review "rv1" "u2" C4db = (false, C4db) ∧
    Comment.delete_comment "c1" "u2" C4db = (false, C4db) ∧
    (∀ x ∈ C4db.votes, x.user_id ≠ "u2" →
      x ∈ ((Vote.create_or_update_vote "r1" "u2" 1 "v9" 0 C4db).2).votes) ∧
    (∀ x ∈ C4db.reviews, x.user_id ≠ "u2" →
      x ∈ ((Review.create_review "r1" "u2" "meh" 3 "rv9" 0 C4db).2).reviews) :=
  ownership_gates_mutations C4db "r1" "p1" "rv1" "c1" "u2" true 1 "v9" 0 "meh" 3 "rv9"
    (by decide) (by decide) (by decide) (by decide) (by decide) (by decide)

/-- Claim C5: a second review submission by the same user for the same route
overwrites the stored review in place, updating its content and rating,
without inserting a second document, so the number of stored reviews does not
grow and at most one review per (route, user) pair ever exists. -/
theorem review_unique_per_pair (db : DB) (r u c : String) (rating : Int)
    (new_id : String) (now : Nat)
    (hA : atMostOneReviewPerPair db.reviews)
    (hN : (db.reviews.map (fun x => x.review_id)).Nodup) :
    atMostOneReviewPerPair ((Review.create_review r u c rating new_id now db).2).reviews ∧
    (∀ ex, db.reviews.find? (fun x => x.route_id == r && x.user_id == u) = some ex →
      ((Review.create_review r u c rating new_id now db).2).reviews.length =
        db.reviews.length ∧
      ((Review.create_review r u c rating new_id now db).2).reviews.filter
        (fun x => x.route_id == r && x.user_id == u) =
        [{ ex with content := c, rating := Review.clamp_rating rating,
                   created_at := now }]) := by
  cases hfind : db.reviews.find? (fun x => x.route_id == r && x.user_id == u) with
  | none =>
    have hres : Review.create_review r u c rating new_id now db =
        (some ⟨new_id, r, u, c, Review.clamp_rating rating, now⟩,
         Review.update_route_rating r
           { db with reviews :=
               db.reviews ++ [⟨new_id, r, u, c, Review.clamp_rating rating, now⟩] }) := by
      simp only [Review.create_review, hfind]
    rw [hres]
    have hzero : db.reviews.countP (fun x => x.route_id == r && x.user_id == u) = 0 :=
      List.countP_eq_zero.mpr (List.find?_eq_none.mp hfind)
    refine ⟨?_, ?_⟩
    · intro r' u'
      show (Review.update_route_rating r
          { db with reviews :=
              db.reviews ++ [⟨new_id, r, u, c, Review.clamp_rating rating, now⟩] }).reviews.countP
        (fun x => x.route_id == r' && x.user_id == u') ≤ 1
      rw [update_route_rating_reviews]
      show (db.reviews ++
          [(⟨new_id, r, u, c, Review.clamp_rating rating, now⟩ : ReviewDoc)]).countP
        (fun x => x.route_id == r' && x.user_id == u') ≤ 1
      rw [List.countP_append]
      by_cases hm : ((⟨new_id, r, u, c, Review.clamp_rating rating, now⟩ : ReviewDoc).route_id == r' &&
          (⟨new_id, r, u, c, Review.clamp_rating rating, now⟩ : ReviewDoc).user_id == u') = true
      · obtain ⟨h1, h2⟩ : r = r' ∧ u = u' := by simpa using hm
        subst h1; subst h2
        simp [List.countP_cons, hm, hzero]
      · simpa [List.countP_cons, hm] using hA r' u'
    · intro ex hex
      cases hex
  | some ex =>
    have hres : Review.create_review r u c rating new_id now db =
        (some ex,
         { db with reviews := (updateOne (fun x => x.review_id == ex.review_id)
             (fun x => { x with content := c, rating := Review.clamp_rating rating,
                                created_at := now }) db.reviews) }) := by
      simp only [Review.create_review, hfind]
    rw [hres]
    refine ⟨?_, ?_⟩
    · intro r' u'
      show (updateOne (fun x => x.review_id == ex.review_id)
          (fun x => { x with content := c, rating := Review.clamp_rating rating,
                             created_at := now }) db.reviews).countP
        (fun x => x.route_id == r' && x.user_id == u') ≤ 1
      rw [countP_updateOne (fun x => x.review_id == ex.review_id)
        (fun x => x.route_id == r' && x.user_id == u')
        (fun x => { x with content := c, rating := Review.clamp_rating rating,
                           created_at := now })
        (fun x => rfl) db.reviews]
      exact hA r' u'
    · intro ex' hex'
      injection hex' with hex'
      subst hex'
      refine ⟨?_, ?_⟩
      · show (updateOne (fun x => x.review_id == ex.review_id)
            (fun x => { x with content := c, rating := Review.clamp_rating rating,
                               created_at := now }) db.reviews).length = db.reviews.length
        exact length_updateOne _ _ _
      · exact updateOne_key_filter hN hfind (hA r u)
          (by simpa using List.find?_some hfind)

/-- Witness for C5: overwriting the single review of user u1 on route r1. -/
theorem review_unique_per_pair_witness :
    atMostOneReviewPerPair
      ((Review.create_review "r1" "u1" "bad" 2 "rv2" 7
        (DB.mk [] [] [⟨"rv1", "r1", "u1", "good", 5, 0⟩] [] [])).2).reviews ∧
    (∀ ex, (DB.mk [] [] [⟨"rv1", "r1", "u1", "good", 5, 0⟩] [] []).reviews.find?
        (fun x => x.route_id == "r1" && x.user_id == "u1") = some ex →
      ((Review.create_review "r1" "u1" "bad" 2 "rv2" 7
          (DB.mk [] [] [⟨"rv1", "r1", "u1", "good", 5, 0⟩] [] [])).2).reviews.length =
        (DB.mk [] [] [⟨"rv1", "r1", "u1", "good", 5, 0⟩] [] []).reviews.length ∧
      ((Review.create_review "r1" "u1" "bad" 2 "rv2" 7
          (DB.mk [] [] [⟨"rv1", "r1", "u1", "good", 5, 0⟩] [] [])).2).reviews.filter
        (fun x => x.route_id == "r1" && x.user_id == "u1") =
        [{ ex with content := "bad", rating := Review.clamp_rating 2,
                   created_at := 7 }]) :=
  review_unique_per_pair (DB.mk [] [] [⟨"rv1", "r1", "u1", "good", 5, 0⟩] [] [])
    "r1" "u1" "bad" 2 "rv2" 7 (fun r u => countP_singleton_le_one _ _) (by decide)


/-- Claim C9: when a review submission overwrites an existing review, the
Review object returned by the create operation, which the controller
serializes into the HTTP response, is the OLD document (its content, rating
and creation timestamp are the previous values), while the stored document
is updated to the newly submitted values. -/
theorem review_overwrite_returns_stale (db : DB) (r u c : String) (rating : Int)
    (new_id : String) (now : Nat) (rt : RouteDoc) (ex : ReviewDoc)
    (hroute : db.routes.find? (fun x => x.route_id == r) = some rt)
    (hex : db.reviews.find? (fun x => x.route_id == r && x.user_id == u) = some ex)
    (hN : (db.reviews.map (fun x => x.review_id)).Nodup) :
    (Review.create_review r u c rating new_id now db).1 = some ex ∧
    (review_controller.create_review (some u) r c rating new_id now db).1 =
      ⟨200, true⟩ ∧
    (review_controller.create_review (some u) r c rating new_id now db).2.1 =
      some ex ∧
    ((review_controller.create_review (some u) r c rating new_id now db).2.2).reviews.find?
      (fun x => x.review_id == ex.review_id) =
      some { ex with content := c, rating := Review.clamp_rating rating,
                     created_at := now } := by
  have hres : Review.create_review r u c rating new_id now db =
      (some ex,
       { db with reviews := (updateOne (fun x => x.review_id == ex.review_id)
           (fun x => { x with content := c, rating := Review.clamp_rating rating,
                              created_at := now }) db.reviews) }) := by
    simp only [Review.create_review, hex]
  have hctrl : review_controller.create_review (some u) r c rating new_id now db =
      (⟨200, true⟩, some ex,
       { db with reviews := (updateOne (fun x => x.review_id == ex.review_id)
           (fun x => { x with content := c, rating := Review.clamp_rating rating,
                              created_at := now }) db.reviews) }) := by
    simp only [review_controller.create_review, Route.get_route_by_id, hroute, hres]
  refine ⟨by rw [hres], by rw [hctrl], by rw [hctrl], ?_⟩
  rw [hctrl]
  exact find?_key_updateOne hN (List.mem_of_find?_eq_some hex) (fun x => rfl)

/-- Witness for C9: u1 resubmits a review for r1 with new content and rating;
the response carries the old document while the store holds the new values. -/
theorem review_overwrite_returns_stale_witness :
    (Review.create_review "r1" "u1" "bad" 1 "rv2" 7
      (DB.mk [⟨"r1", "n", [], "u1", 0, true, 0, 50, 1, none, 0, 0, 0⟩] []
        [⟨"rv1", "r1", "u1", "good", 5, 0⟩] [] [])).1 =
      some ⟨"rv1", "r1", "u1", "good", 5, 0⟩ ∧
    (review_controller.create_review (some "u1") "r1" "bad" 1 "rv2" 7
      (DB.mk [⟨"r1", "n", [], "u1", 0, true, 0, 50, 1, none, 0, 0, 0⟩] []
        [⟨"rv1", "r1", "u1", "good", 5, 0⟩] [] [])).1 = ⟨200, true⟩ ∧
    (review_controller.create_review (some "u1") "r1" "bad" 1 "rv2" 7
      (DB.mk [⟨"r1", "n", [], "u1", 0, true, 0, 50, 1, none, 0, 0, 0⟩] []
        [⟨"rv1", "r1", "u1", "good", 5, 0⟩] [] [])).2.1 =
      some ⟨"rv1", "r1", "u1", "good", 5, 0⟩ ∧
    ((review_controller.create_review (some "u1") "r1" "bad" 1 "rv2" 7
      (DB.mk [⟨"r1", "n", [], "u1", 0, true, 0, 50, 1, none, 0, 0, 0⟩] []
        [⟨"rv1", "r1", "u1", "good", 5, 0⟩] [] [])).2.2).reviews.find?
      (fun x => x.review_id == (⟨"rv1", "r1", "u1", "good", 5, 0⟩ : ReviewDoc).review_id) =
      some { (⟨"rv1", "r1", "u1", "good", 5, 0⟩ : ReviewDoc) with
             content := "bad", rating := Review.clamp_rating 1, created_at := 7 } :=
  review_overwrite_returns_stale
    (DB.mk [⟨"r1", "n", [], "u1", 0, true, 0, 50, 1, none, 0, 0, 0⟩] []
      [⟨"rv1", "r1", "u1", "good", 5, 0⟩] [] [])
    "r1" "u1" "bad" 1 "rv2" 7
    ⟨"r1", "n", [], "u1", 0, true, 0, 50, 1, none, 0, 0, 0⟩
    ⟨"rv1", "r1", "u1", "good", 5, 0⟩
    (by decide) (by decide) (by decide)


/-- Claim C6, evaluated at the failing input: u1 resubmits a review for r1
with rating 1.  The overwrite branch of Review.create_review updates the
stored review to rating 1 but performs no rating recomputation, so the route
keeps aggregate 5.0 (50 tenths) although the average over the matching
review documents is 1.0 (10 tenths), the value Review.update_route_rating
would write. -/
theorem review_overwrite_skips_rating_recompute :
    ((Review.create_review "r1" "u1" "bad" 1 "rv2" 7 C6db).2).reviews.map
      (fun x => x.rating) = [1] ∧
    (((Review.create_review "r1" "u1" "bad" 1 "rv2" 7 C6db).2).routes.find?
      (fun x => x.route_id == "r1")).map (fun x => x.avg_rating_tenths) = some 50 ∧
    ((Review.update_route_rating "r1"
        ((Review.create_review "r1" "u1" "bad" 1 "rv2" 7 C6db).2)).routes.find?
      (fun x => x.route_id == "r1")).map (fun x => x.avg_rating_tenths) = some 10 ∧
    (50 : Int) ≠ 10 := by decide

theorem comment_update_route_rating_comments (r : String) (db : DB) :
    (Comment.update_route_rating r db).comments = db.comments := by
  cases hm : db.comments.filter (fun x => x.route_id == r && x.parent_id == none) with
  | nil => simp only [Comment.update_route_rating, hm]
  | cons a l => simp only [Comment.update_route_rating, hm]

/-- Claim C7: deleting a parent comment (one with no parent id) as its owner
succeeds, removes exactly that comment and every comment whose parent id
names it, decrements no reply counter, and leaves every other comment
untouched; afterwards no reply of the deleted comment remains. -/
theorem delete_parent_comment_cascades (db : DB) (i u : String) (c : CommentDoc)
    (hfind : db.comments.find? (fun x => x.comment_id == i) = some c)
    (hparent : c.parent_id = none)
    (howner : c.user_id = u) :
    (Comment.delete_comment i u db).1 = true ∧
    (Comment.delete_comment i u db).2.comments =
      ((db.comments.eraseP (fun x => x.comment_id == i && x.user_id == u)).filter
        (fun x => !(x.parent_id == some i))) ∧
    (∀ x ∈ (Comment.delete_comment i u db).2.comments, x.parent_id ≠ some i) ∧
    (∀ x ∈ (Comment.delete_comment i u db).2.comments, x ∈ db.comments) := by
  have hmem : c ∈ db.comments := List.mem_of_find?_eq_some hfind
  have hcid : c.comment_id = i := by simpa using List.find?_some hfind
  have hany : db.comments.any (fun x => x.comment_id == i && x.user_id == u) = true :=
    List.any_eq_true.mpr ⟨c, hmem, by
      simp only [Bool.and_eq_true, beq_iff_eq]
      exact ⟨hcid, howner⟩⟩
  have hres : Comment.delete_comment i u db =
      (true, Comment.update_route_rating c.route_id
        { db with comments := ((db.comments.eraseP
            (fun x => x.comment_id == i && x.user_id == u)).filter
            (fun x => !(x.parent_id == some i))) }) := by
    simp only [Comment.delete_comment, hfind, hparent, hany, if_true]
  rw [hres]
  dsimp only
  refine ⟨rfl, ?_, ?_, ?_⟩
  · rw [comment_update_route_rating_comments]
  · intro x hx
    rw [comment_update_route_rating_comments] at hx
    have hmem2 := List.mem_filter.mp hx
    simpa using hmem2.2
  · intro x hx
    rw [comment_update_route_rating_comments] at hx
    exact List.Sublist.mem (List.mem_filter.mp hx).1 (List.eraseP_sublist _)


/-- Witness for C7: u1 deletes parent comment c1; the reply c2 goes with it
and c3 survives unchanged. -/
theorem delete_parent_comment_cascades_witness :
    (Comment.delete_comment "c1" "u1" C7db).1 = true ∧
    (Comment.delete_comment "c1" "u1" C7db).2.comments =
      ((C7db.comments.eraseP (fun x => x.comment_id == "c1" && x.user_id == "u1")).filter
        (fun x => !(x.parent_id == some "c1"))) ∧
    (∀ x ∈ (Comment.delete_comment "c1" "u1" C7db).2.comments,
      x.parent_id ≠ some "c1") ∧
    (∀ x ∈ (Comment.delete_comment "c1" "u1" C7db).2.comments, x ∈ C7db.comments) :=
  delete_parent_comment_cascades C7db "c1" "u1"
    ⟨"c1", "r1", "u1", "hi", 5, [], none, 0, 1⟩ (by decide) (by decide) (by decide)

theorem create_review_shape (r u c : String) (rating : Int) (new_id : String)
    (now : Nat) (db : DB) :
    ∃ rev db1, Review.create_review r u c rating new_id now db = (some rev, db1) := by
  simp only [Review.create_review]
  split
  · exact ⟨_, _, rfl⟩
  · exact ⟨_, _, rfl⟩


/-- Claim C3 fails as stated: r1 is private and owned by u1, yet the share
endpoint lets the authenticated non-owner u2 share it, answering success and
incrementing the share counter of the route, a write to a private route by a
non-owner. -/
theorem private_route_share_not_rejected :
    ((C3db.routes.find? (fun x => x.route_id == "r1")).map
      (fun x => (x.is_public, x.user_id, x.share_count)) = some (false, "u1", 0)) ∧
    "u2" ≠ "u1" ∧
    (route_controller.share_route (some "u2") "r1" C3db).1 = ⟨200, true⟩ ∧
    (((route_controller.share_route (some "u2") "r1" C3db).2).routes.find?
      (fun x => x.route_id == "r1")).map (fun x => x.share_count) = some 1 := by
  decide

/-- Claim C3 amended: for a private route, fetching rejects every non-owner
with 403 and no route payload, and voting fails for every requester without
touching the store; but sharing, reviewing and commenting are only gated by
authentication, so any authenticated user, owner or not, gets a success
response from them. -/
theorem private_route_access_amended (db : DB) (r : String)
    (session : Option String) (rt : RouteDoc) (t : Int) (vid : String)
    (now : Nat) (content : String) (rating : Int) (rvid cid : String)
    (hroute : db.routes.find? (fun x => x.route_id == r) = some rt)
    (hpriv : rt.is_public = false)
    (hno : ∀ uid, session = some uid → uid ≠ rt.user_id) :
    route_controller.get_route_by_id session r db = (⟨403, false⟩, none) ∧
    (vote_controller.create_or_update_vote session r t vid now db).1.success = false ∧
    (vote_controller.create_or_update_vote session r t vid now db).2 = db ∧
    (∀ uid, session = some uid →
      (route_controller.share_route session r db).1 = ⟨200, true⟩ ∧
      (review_controller.create_review session r content rating rvid now db).1 =
        ⟨200, true⟩ ∧
      (comment_controller.create_comment session r content rating [] none
        cid now db).1 = ⟨200, true⟩) := by
  cases session with
  | none =>
    refine ⟨?_, rfl, rfl, ?_⟩
    · simp only [route_controller.get_route_by_id, Route.get_route_by_id, hroute,
        hpriv, Bool.false_eq_true, if_false]
    · intro uid huid
      cases huid
  | some uid =>
    have hne : uid ≠ rt.user_id := hno uid rfl
    have hne' : (uid == rt.user_id) = false := by simpa using hne
    have hpriv' : (!rt.is_public) = true := by simp [hpriv]
    refine ⟨?_, ?_, ?_, ?_⟩
    · simp only [route_controller.get_route_by_id, Route.get_route_by_id, hroute,
        hpriv, Bool.false_eq_true, if_false, hne']
    · simp only [vote_controller.create_or_update_vote, Route.get_route_by_id,
        hroute, hpriv', if_true]
    · simp only [vote_controller.create_or_update_vote, Route.get_route_by_id,
        hroute, hpriv', if_true]
    · intro uid' huid'
      injection huid' with huid'
      subst huid'
      have hprt : (rt.route_id == r) = true := by
        have h := List.find?_some hroute
        simpa using h
      have hany : db.routes.any (fun x => x.route_id == r) = true :=
        List.any_eq_true.mpr ⟨rt, List.mem_of_find?_eq_some hroute, hprt⟩
      refine ⟨?_, ?_, ?_⟩
      · simp only [route_controller.share_route, Route.get_route_by_id, hroute,
          Route.update_share_count, hany]
      · obtain ⟨rev, db1, hcr⟩ :=
          create_review_shape r uid content rating rvid now db
        simp only [review_controller.create_review, Route.get_route_by_id,
          hroute, hcr]
      · simp only [comment_controller.create_comment, Route.get_route_by_id,
          hroute, Comment.create_comment, if_true]

/-- Witness for the amended C3: the non-owner u2 against the private route of
u1; fetching is refused, voting is refused and changes nothing, sharing
succeeds. -/
theorem private_route_access_amended_witness :
    route_controller.get_route_by_id (some "u2") "r1" C3db = (⟨403, false⟩, none) ∧
    (vote_controller.create_or_update_vote (some "u2") "r1" 1 "v1" 0 C3db).1.success =
      false ∧
    (vote_controller.create_or_update_vote (some "u2") "r1" 1 "v1" 0 C3db).2 = C3db ∧
    (∀ uid, (some "u2" : Option String) = some uid →
      (route_controller.share_route (some "u2") "r1" C3db).1 = ⟨200, true⟩ ∧
      (review_controller.create_review (some "u2") "r1" "nice" 5 "rv9" 0 C3db).1 =
        ⟨200, true⟩ ∧
      (comment_controller.create_comment (some "u2") "r1" "nice" 5 [] none
        "c9" 0 C3db).1 = ⟨200, true⟩) :=
  private_route_access_amended C3db "r1" (some "u2")
    ⟨"r1", "n", [], "u1", 0, false, 0, 0, 0, none, 0, 0, 0⟩ 1 "v1" 0 "nice" 5 "rv9" "c9"
    (by decide) (by decide)
    (fun uid h => by
      injection h with h
      subst h
      decide)

/-- Claim C8 fails as stated: with the database down, POST /api/upload, an
/api path, is still dispatched to the upload handler registered outside the
try/except of app.py, not to the 503 fallback; an unauthenticated upload
request receives 401, not 503. -/
theorem api_upload_alive_when_db_failed :
    app.api_dispatch_db_failed "POST" "/api/upload" = some app.ApiTarget.upload_file ∧
    app.charsStart "/api/".data "/api/upload".data = true ∧
    app.api_response_db_failed "POST" "/api/upload" none false "" = some ⟨401, false⟩ ∧
    app.api_response_db_failed "POST" "/api/upload" none false "" ≠
      some app.database_error_resp := by
  decide

/-- Claim C8 amended: when the database connection failed at startup, every
request to an /api path with a nonempty remainder and one of the methods
GET, POST, PUT or DELETE receives the 503 failure response from the single
fallback handler, except POST /api/upload, which the still-registered upload
handler serves. -/
theorem api_db_failed_fallback (method path : String) (session : Option String)
    (has_file : Bool) (filename : String)
    (hapi : app.charsStart "/api/".data path.data = true)
    (hne : path ≠ "/api/")
    (hm : method = "GET" ∨ method = "POST" ∨ method = "PUT" ∨ method = "DELETE")
    (hup : ¬(path = "/api/upload" ∧ method = "POST")) :
    app.api_response_db_failed method path session has_file filename =
      some app.database_error_resp := by
  have h1 : (path == "/api/upload" && method == "POST") = false := by
    by_cases hp : path = "/api/upload"
    · have hmp : method ≠ "POST" := fun hm' => hup ⟨hp, hm'⟩
      simp [hp, hmp]
    · simp [hp]
  have h2 : (path != "/api/") = true := by simp [hne]
  have h3 : (method == "GET" || method == "POST" || method == "PUT" ||
      method == "DELETE") = true := by
    rcases hm with h | h | h | h <;> simp [h]
  simp only [app.api_response_db_failed, app.api_dispatch_db_failed, h1,
    Bool.false_eq_true, if_false, hapi, h2, h3, Bool.and_true, Bool.true_and,
    if_true, Option.map_some']

/-- Witness for the amended C8: a GET on /api/routes with the database down
receives the 503 failure response. -/
theorem api_db_failed_fallback_witness :
    app.api_response_db_failed "GET" "/api/routes" none false "" =
      some app.database_error_resp :=
  api_db_failed_fallback "GET" "/api/routes" none false ""
    (by decide) (by decide) (Or.inl rfl) (by decide)
